import Mathlib

/-!
Verification of the iex-rs endpoint-encoding and resilient-decoding layer.

The development shallowly embeds the serde-based JSON decoding used by the
crate: JSON values are a Lean inductive (numbers as rationals, which is exact
for every payload appearing in the repository), the two coercion adapters
`from_str` and `from_bool_str` from src/lib.rs are translated directly, and
the derived `Deserialize`/`Serialize` implementations for the record schemas
in src/reference.rs and src/market_data.rs are spelled out field by field
following serde's documented semantics (renamed keys, `default` attributes,
unknown keys ignored, duplicated known keys rejected).
-/

namespace IexRs

/-- JSON values as held by a serde_json `Value`.  Numbers are modelled as
rationals; every numeric literal in the repository's payloads (integers and
decimal fractions such as 0.5) is represented exactly. -/
inductive Json where
  | null : Json
  | bool (b : Bool) : Json
  | num (q : Rat) : Json
  | str (s : String) : Json
  | arr (elems : List Json) : Json
  | obj (fields : List (String × Json)) : Json

/-- serde_json: deserializing a Rust `String` from a `Value` succeeds only on
`Value::String`; any other value is an invalid-type error. -/
def deserializeString : Json → Except String String
  | .str s => .ok s
  | _ => .error "invalid type, expected a string"

/-- serde_json: deserializing a `bool` succeeds only on `Value::Bool`. -/
def deserializeBool : Json → Except String Bool
  | .bool b => .ok b
  | _ => .error "invalid type, expected a boolean"

/-- Interpret a JSON number as a Rust `u64`: it must be an integer (denominator
one, non-negative numerator) below 2^64. -/
def ratToU64 (q : Rat) : Option Nat :=
  match q.num with
  | .ofNat n => if q.den = 1 ∧ n < 2 ^ 64 then some n else none
  | .negSucc _ => none

/-- serde_json: deserializing a `u64` from a `Value`. -/
def deserializeU64 : Json → Except String Nat
  | .num q =>
    match ratToU64 q with
    | some n => .ok n
    | none => .error "invalid number, expected u64"
  | _ => .error "invalid type, expected u64"

/-- serde_json: deserializing an `f64` from a `Value` accepts any JSON
number. -/
def deserializeF64 : Json → Except String Rat
  | .num q => .ok q
  | _ => .error "invalid type, expected f64"

/-- Decimal value of a digit string. -/
def decDigits (cs : List Char) : Nat :=
  cs.foldl (fun acc c => acc * 10 + (c.toNat - 48)) 0

/-- Model of Rust's `u64::from_str`: an optional leading '+' followed by at
least one decimal digit; the empty string, a non-digit character, and values
not below 2^64 produce the standard library's error messages. -/
def u64FromStr (s : String) : Except String Nat :=
  let cs :=
    match s.data with
    | '+' :: rest => rest
    | cs => cs
  if cs.isEmpty then .error "cannot parse integer from empty string"
  else if cs.all Char.isDigit then
    if decDigits cs < 2 ^ 64 then .ok (decDigits cs)
    else .error "number too large to fit in target type"
  else .error "invalid digit found in string"

/-- Model of Rust's `bool::from_str`: exactly the strings "true" and "false"
parse. -/
def boolFromStr (s : String) : Except String Bool :=
  if s = "true" then .ok true
  else if s = "false" then .ok false
  else .error "provided string was not true or false"

/-- src/lib.rs `from_str` (instantiated at `T = u64`, the target type of every
use in the repository): deserialize a string, replace an empty string by "0",
then parse with the target type's `FromStr`, turning a parse error into a
serde custom error. -/
def from_str (j : Json) : Except String Nat := do
  let s ← deserializeString j
  let s := if s.length = 0 then "0" else s
  u64FromStr s

/-- src/lib.rs `from_bool_str` (instantiated at `T = bool`, the target type of
every use in the repository): deserialize a string, map "N", "F" and "" to
"false" and every other string to "true", then parse with `bool::FromStr`. -/
def from_bool_str (j : Json) : Except String Bool := do
  let s ← deserializeString j
  let s := if s = "N" ∨ s = "F" ∨ s = "" then "false" else "true"
  boolFromStr s

/-- A calendar date, the value space of chrono's `NaiveDate`. -/
structure NaiveDate where
  year : Int
  month : Nat
  day : Nat
deriving DecidableEq, Repr

/-- Gregorian leap-year rule. -/
def isLeapYear (y : Int) : Bool :=
  (y % 4 == 0 && y % 100 != 0) || y % 400 == 0

/-- Days in a month of the proleptic Gregorian calendar. -/
def daysInMonth (y : Int) (m : Nat) : Nat :=
  match m with
  | 1 => 31
  | 2 => if isLeapYear y then 29 else 28
  | 3 => 31
  | 4 => 30
  | 5 => 31
  | 6 => 30
  | 7 => 31
  | 8 => 31
  | 9 => 30
  | 10 => 31
  | 11 => 30
  | 12 => 31
  | _ => 0

/-- Split a character list into the groups separated by a separator
character (the list of groups is never empty). -/
def splitOnChar (sep : Char) : List Char → List (List Char)
  | [] => [[]]
  | c :: rest =>
    match splitOnChar sep rest with
    | g :: gs => if c = sep then [] :: g :: gs else (c :: g) :: gs
    | [] => if c = sep then [[], []] else [[c]]

/-- Model of chrono's ISO-8601 `NaiveDate` parsing ("%Y-%m-%d") for
non-negative years: three dash-separated digit groups forming a valid
calendar date. -/
def parseNaiveDate (s : String) : Except String NaiveDate :=
  match splitOnChar '-' s.data with
  | [ys, ms, ds] =>
    if ys ≠ [] ∧ ms ≠ [] ∧ ds ≠ [] ∧ ys.all Char.isDigit ∧
        ms.all Char.isDigit ∧ ds.all Char.isDigit then
      let y : Int := decDigits ys
      let m := decDigits ms
      let d := decDigits ds
      if 1 ≤ m ∧ m ≤ 12 ∧ 1 ≤ d ∧ d ≤ daysInMonth y m then .ok ⟨y, m, d⟩
      else .error "input is out of range"
    else .error "invalid character in date"
  | _ => .error "bad date format"

/-- chrono's `Deserialize` for `NaiveDate`: expect a JSON string, parse it as
an ISO calendar date. -/
def deserializeNaiveDate (j : Json) : Except String NaiveDate := do
  let s ← deserializeString j
  parseNaiveDate s

/-- chrono's `Serialize` for `NaiveDate`: the "%Y-%m-%d" rendering, with the
year zero-padded to four digits and month/day to two. -/
def formatNaiveDate (d : NaiveDate) : String :=
  let pad (width : Nat) (n : Nat) : String :=
    let s := toString n
    String.mk (List.replicate (width - s.length) '0') ++ s
  pad 4 d.year.toNat ++ "-" ++ pad 2 d.month ++ "-" ++ pad 2 d.day

/-- First binding of a key in a JSON object's field list. -/
def lookupField : List (String × Json) → String → Option Json
  | [], _ => none
  | (k, v) :: rest, name => if k = name then some v else lookupField rest name

/-- serde's derived struct visitor rejects a payload that repeats a known
field ("duplicate field"); unknown keys may repeat freely (each occurrence is
ignored). -/
def dupKnownField (fields : List (String × Json)) (known : List String) : Bool :=
  known.any fun k => 2 ≤ fields.countP fun f => f.1 == k

/-- A field with no `default` attribute must be present ("missing field"). -/
def reqField (fields : List (String × Json)) (name : String) : Except String Json :=
  match lookupField fields name with
  | some v => .ok v
  | none => .error ("missing field " ++ name)

/-- src/reference.rs `SymbolData`: one entry of the symbol listing.  Field
`iex_id` is a `u64` declared with `#[serde(default, deserialize_with =
"from_str")]`; `issue_type` is renamed to "type"; the struct is
`rename_all = "camelCase"`. -/
structure SymbolData where
  symbol : String
  name : String
  date : NaiveDate
  is_enabled : Bool
  issue_type : String
  iex_id : Nat
deriving DecidableEq, Repr

/-- The wire keys of `SymbolData` after serde renaming. -/
def symbolDataKnownFields : List String :=
  ["symbol", "name", "date", "isEnabled", "type", "iexId"]

/-- serde's derived `Deserialize` for `SymbolData`: an object whose known keys
decode field by field; `iexId` falls back to the `u64` default 0 when absent
and otherwise goes through `from_str`; unknown keys are ignored. -/
def decodeSymbolData : Json → Except String SymbolData
  | .obj fields =>
    if dupKnownField fields symbolDataKnownFields then .error "duplicate field"
    else do
      let symbol ← reqField fields "symbol" >>= deserializeString
      let name ← reqField fields "name" >>= deserializeString
      let date ← reqField fields "date" >>= deserializeNaiveDate
      let is_enabled ← reqField fields "isEnabled" >>= deserializeBool
      let issue_type ← reqField fields "type" >>= deserializeString
      let iex_id ←
        match lookupField fields "iexId" with
        | some v => from_str v
        | none => .ok 0
      .ok ⟨symbol, name, date, is_enabled, issue_type, iex_id⟩
  | _ => .error "invalid type, expected struct SymbolData"

/-- serde's derived `Serialize` for `SymbolData`: fields in declaration order
under their renamed keys; note that `iex_id` is serialized as a plain JSON
number (the derive ignores `deserialize_with`, and no `serialize_with` is
declared). -/
def encodeSymbolData (s : SymbolData) : Json :=
  .obj [("symbol", .str s.symbol), ("name", .str s.name),
        ("date", .str (formatNaiveDate s.date)), ("isEnabled", .bool s.is_enabled),
        ("type", .str s.issue_type), ("iexId", .num s.iex_id)]

/-- src/reference.rs `CorporateActionsData`: one entry of the daily corporate
actions list.  `rename_all = "PascalCase"` with several explicit renames;
seven `u64` fields use `#[serde(default, deserialize_with = "from_str")]`,
three `bool` fields use `#[serde(deserialize_with = "from_bool_str")]`
(without `default`). -/
structure CorporateActionsData where
  record_id : String
  daily_list_timestamp : String
  effective_date : NaiveDate
  issue_event : String
  current_symbol_in_inets_symbology : String
  current_symbol_in_cqss_symbology : String
  current_symbol_in_cmss_symbology : String
  new_symbol_in_inets_symbology : String
  new_symbol_in_cqss_symbology : String
  new_symbol_in_cmss_symbology : String
  current_security_name : String
  new_security_name : String
  current_company_name : String
  new_company_name : String
  current_listing_center : String
  new_round_lot_size : Nat
  current_luld_tier_indicator : Nat
  new_luld_tier_indicator : Nat
  expiration_date : Nat
  separation_date : Nat
  settlement_date : Nat
  maturity_date : Nat
  redemption_date : Nat
  current_financial_status : String
  new_financial_status : String
  when_issued_flag : Bool
  when_distributed_flag : Bool
  ipo_flag : Bool
  notes_for_each_entry : String
  record_update_time : String
deriving DecidableEq, Repr

/-- The wire keys of `CorporateActionsData` after serde renaming. -/
def corporateActionsKnownFields : List String :=
  ["RecordID", "DailyListTimestamp", "EffectiveDate", "IssueEvent",
   "CurrentSymbolinINETSymbology", "CurrentSymbolinCQSSymbology",
   "CurrentSymbolinCMSSymbology", "NewSymbolinINETSymbology",
   "NewSymbolinCQSSymbology", "NewSymbolinCMSSymbology",
   "CurrentSecurityName", "NewSecurityName", "CurrentCompanyName",
   "NewCompanyName", "CurrentListingCenter", "NewRoundLotSize",
   "CurrentLULDTierIndicator", "NewLULDTierIndicator", "ExpirationDate",
   "SeparationDate", "SettlementDate", "MaturityDate", "RedemptionDate",
   "CurrentFinancialStatus", "NewFinancialStatus", "WhenIssuedFlag",
   "WhenDistributedFlag", "IPOFlag", "NotesforEachEntry", "RecordUpdateTime"]

/-- A `u64` field declared with both `default` and `deserialize_with =
"from_str"`: absent means the default 0, present goes through `from_str`. -/
def optFromStrField (fields : List (String × Json)) (name : String) :
    Except String Nat :=
  match lookupField fields name with
  | some v => from_str v
  | none => .ok 0

/-- serde's derived `Deserialize` for `CorporateActionsData`. -/
def decodeCorporateActionsData : Json → Except String CorporateActionsData
  | .obj fields =>
    if dupKnownField fields corporateActionsKnownFields then
      .error "duplicate field"
    else do
      let record_id ← reqField fields "RecordID" >>= deserializeString
      let daily_list_timestamp ←
        reqField fields "DailyListTimestamp" >>= deserializeString
      let effective_date ←
        reqField fields "EffectiveDate" >>= deserializeNaiveDate
      let issue_event ← reqField fields "IssueEvent" >>= deserializeString
      let cs_inet ←
        reqField fields "CurrentSymbolinINETSymbology" >>= deserializeString
      let cs_cqs ←
        reqField fields "CurrentSymbolinCQSSymbology" >>= deserializeString
      let cs_cms ←
        reqField fields "CurrentSymbolinCMSSymbology" >>= deserializeString
      let ns_inet ←
        reqField fields "NewSymbolinINETSymbology" >>= deserializeString
      let ns_cqs ←
        reqField fields "NewSymbolinCQSSymbology" >>= deserializeString
      let ns_cms ←
        reqField fields "NewSymbolinCMSSymbology" >>= deserializeString
      let current_security_name ←
        reqField fields "CurrentSecurityName" >>= deserializeString
      let new_security_name ←
        reqField fields "NewSecurityName" >>= deserializeString
      let current_company_name ←
        reqField fields "CurrentCompanyName" >>= deserializeString
      let new_company_name ←
        reqField fields "NewCompanyName" >>= deserializeString
      let current_listing_center ←
        reqField fields "CurrentListingCenter" >>= deserializeString
      let new_round_lot_size ← optFromStrField fields "NewRoundLotSize"
      let current_luld_tier_indicator ←
        optFromStrField fields "CurrentLULDTierIndicator"
      let new_luld_tier_indicator ←
        optFromStrField fields "NewLULDTierIndicator"
      let expiration_date ← optFromStrField fields "ExpirationDate"
      let separation_date ← optFromStrField fields "SeparationDate"
      let settlement_date ← optFromStrField fields "SettlementDate"
      let maturity_date ← optFromStrField fields "MaturityDate"
      let redemption_date ← optFromStrField fields "RedemptionDate"
      let current_financial_status ←
        reqField fields "CurrentFinancialStatus" >>= deserializeString
      let new_financial_status ←
        reqField fields "NewFinancialStatus" >>= deserializeString
      let when_issued_flag ←
        reqField fields "WhenIssuedFlag" >>= from_bool_str
      let when_distributed_flag ←
        reqField fields "WhenDistributedFlag" >>= from_bool_str
      let ipo_flag ← reqField fields "IPOFlag" >>= from_bool_str
      let notes_for_each_entry ←
        reqField fields "NotesforEachEntry" >>= deserializeString
      let record_update_time ←
        reqField fields "RecordUpdateTime" >>= deserializeString
      .ok ⟨record_id, daily_list_timestamp, effective_date, issue_event,
           cs_inet, cs_cqs, cs_cms, ns_inet, ns_cqs, ns_cms,
           current_security_name, new_security_name, current_company_name,
           new_company_name, current_listing_center, new_round_lot_size,
           current_luld_tier_indicator, new_luld_tier_indicator,
           expiration_date, separation_date, settlement_date, maturity_date,
           redemption_date, current_financial_status, new_financial_status,
           when_issued_flag, when_distributed_flag, ipo_flag,
           notes_for_each_entry, record_update_time⟩
  | _ => .error "invalid type, expected struct CorporateActionsData"

/-- src/market_data.rs `AuctionData`: the per-symbol auction information
message; `rename_all = "camelCase"`, all fields plain (no coercion
attributes), `u64` share counts and prices plus two `f64` collar prices. -/
structure AuctionData where
  auction_type : String
  paired_shares : Nat
  imbalance_shares : Nat
  imbalance_side : String
  reference_price : Nat
  indicative_price : Nat
  auction_book_price : Nat
  collar_reference_price : Nat
  lower_collar_price : Rat
  upper_collar_price : Rat
  extension_number : Nat
  start_time : Nat
  timestamp : Nat
deriving DecidableEq, Repr

/-- The wire keys of `AuctionData`. -/
def auctionDataKnownFields : List String :=
  ["auctionType", "pairedShares", "imbalanceShares", "imbalanceSide",
   "referencePrice", "indicativePrice", "auctionBookPrice",
   "collarReferencePrice", "lowerCollarPrice", "upperCollarPrice",
   "extensionNumber", "startTime", "timestamp"]

/-- serde's derived `Deserialize` for `AuctionData`. -/
def decodeAuctionData : Json → Except String AuctionData
  | .obj fields =>
    if dupKnownField fields auctionDataKnownFields then .error "duplicate field"
    else do
      let auction_type ← reqField fields "auctionType" >>= deserializeString
      let paired_shares ← reqField fields "pairedShares" >>= deserializeU64
      let imbalance_shares ←
        reqField fields "imbalanceShares" >>= deserializeU64
      let imbalance_side ←
        reqField fields "imbalanceSide" >>= deserializeString
      let reference_price ←
        reqField fields "referencePrice" >>= deserializeU64
      let indicative_price ←
        reqField fields "indicativePrice" >>= deserializeU64
      let auction_book_price ←
        reqField fields "auctionBookPrice" >>= deserializeU64
      let collar_reference_price ←
        reqField fields "collarReferencePrice" >>= deserializeU64
      let lower_collar_price ←
        reqField fields "lowerCollarPrice" >>= deserializeF64
      let upper_collar_price ←
        reqField fields "upperCollarPrice" >>= deserializeF64
      let extension_number ←
        reqField fields "extensionNumber" >>= deserializeU64
      let start_time ← reqField fields "startTime" >>= deserializeU64
      let timestamp ← reqField fields "timestamp" >>= deserializeU64
      .ok ⟨auction_type, paired_shares, imbalance_shares, imbalance_side,
           reference_price, indicative_price, auction_book_price,
           collar_reference_price, lower_collar_price, upper_collar_price,
           extension_number, start_time, timestamp⟩
  | _ => .error "invalid type, expected struct AuctionData"

/-- serde's derived `Serialize` for `AuctionData`: fields in declaration
order under their camelCase keys, numbers as JSON numbers. -/
def encodeAuctionDataFields (a : AuctionData) : List (String × Json) :=
  [("auctionType", .str a.auction_type),
        ("pairedShares", .num a.paired_shares),
        ("imbalanceShares", .num a.imbalance_shares),
        ("imbalanceSide", .str a.imbalance_side),
        ("referencePrice", .num a.reference_price),
        ("indicativePrice", .num a.indicative_price),
        ("auctionBookPrice", .num a.auction_book_price),
        ("collarReferencePrice", .num a.collar_reference_price),
        ("lowerCollarPrice", .num a.lower_collar_price),
        ("upperCollarPrice", .num a.upper_collar_price),
        ("extensionNumber", .num a.extension_number),
        ("startTime", .num a.start_time),
        ("timestamp", .num a.timestamp)]

/-- The serialized form of an `AuctionData` record. -/
def encodeAuctionData (a : AuctionData) : Json :=
  .obj (encodeAuctionDataFields a)

/-- src/market_data.rs `Auctions = HashMap<String, AuctionData>`: a JSON
object keyed by symbol, each value an `AuctionData`.  The mapping is modelled
as the association list of decoded entries in payload order. -/
def decodeAuctions : Json → Except String (List (String × AuctionData))
  | .obj fields =>
    fields.mapM fun p => (decodeAuctionData p.2).map fun a => (p.1, a)
  | _ => .error "invalid type, expected a map"

/-- Modelled from the spec: the `Duration` lookback-window enum used by the
chart, dividends and splits endpoints (its source, src/types.rs, is not under
src/); each variant serializes to the service's lowercase token. -/
inductive Duration where
  | OneDay
  | OneMonth
  | ThreeMonths
  | SixMonths
  | YearToDate
  | OneYear
  | TwoYears
  | FiveYears
deriving DecidableEq, Repr

/-- Modelled from the spec: the lowercase URL token of each `Duration`. -/
def Duration.toToken : Duration → String
  | .OneDay => "1d"
  | .OneMonth => "1m"
  | .ThreeMonths => "3m"
  | .SixMonths => "6m"
  | .YearToDate => "ytd"
  | .OneYear => "1y"
  | .TwoYears => "2y"
  | .FiveYears => "5y"

/-- Modelled from the spec: the ranking category of the list endpoint (its
source, src/stocks.rs, is not under src/). -/
inductive ListParam where
  | Gainers
  | Losers
  | MostActive
  | IexVolume
  | IexPercent
deriving DecidableEq, Repr

/-- Modelled from the spec: the URL token of each ranking category. -/
def ListParam.toToken : ListParam → String
  | .Gainers => "gainers"
  | .Losers => "losers"
  | .MostActive => "mostactive"
  | .IexVolume => "iexvolume"
  | .IexPercent => "iexpercent"

/-- Modelled from the spec: the free-form optional parameter bag of the chart
endpoint, rendered as key=value query parameters. -/
structure ChartParams where
  entries : List (String × String)
deriving DecidableEq, Repr

/-- Render an optional parameter bag as a query string, omitted entirely when
unset. -/
def queryOfParams : Option ChartParams → String
  | none => ""
  | some ps =>
    "?" ++ String.intercalate "&" (ps.entries.map fun p => p.1 ++ "=" ++ p.2)

/-- Modelled from the spec: the closed set of stock endpoint descriptors, one
variant per supported data product, each owning only its own parameters (its
source, src/stocks.rs, is not under src/). -/
inductive StocksEndpoint where
  | Book
  | Chart (duration : Duration) (params : Option ChartParams)
  | Company
  | DelayedQuote
  | Dividends (duration : Duration)
  | Earnings
  | EffectiveSpread
  | Financials
  | List (param : ListParam)
  | Logo
  | News (range : Option Nat)
  | Ohlc
  | Peers
  | Previous
  | Price
  | Quote
  | Relevant
  | Splits (duration : Duration)
  | Stats
  | ThresholdSecurities (date : Option String)
  | VolumeByVenue
deriving DecidableEq, Repr

/-- Modelled from the spec: `StocksEndpoint::to_endpoint`, the fixed URL
segment of each variant, with resource identifiers (duration, list category,
optional date) interpolated into the path and free-form optional parameters
appended as a query string, omitted when unset. -/
def StocksEndpoint.to_endpoint : StocksEndpoint → String
  | .Book => "book"
  | .Chart duration params => "chart/" ++ duration.toToken ++ queryOfParams params
  | .Company => "company"
  | .DelayedQuote => "delayed-quote"
  | .Dividends duration => "dividends/" ++ duration.toToken
  | .Earnings => "earnings"
  | .EffectiveSpread => "effective-spread"
  | .Financials => "financials"
  | .List param => "list/" ++ param.toToken
  | .Logo => "logo"
  | .News range =>
    match range with
    | none => "news"
    | some n => "news?range=" ++ toString n
  | .Ohlc => "ohlc"
  | .Peers => "peers"
  | .Previous => "previous"
  | .Price => "price"
  | .Quote => "quote"
  | .Relevant => "relevant"
  | .Splits duration => "splits/" ++ duration.toToken
  | .Stats => "stats"
  | .ThresholdSecurities date =>
    match date with
    | none => "threshold-securities"
    | some d => "threshold-securities/" ++ d
  | .VolumeByVenue => "volume-by-venue"

/-- src/lib.rs `IEX_ENDPOINT`: the fixed base URL of the JSON API. -/
def IEX_ENDPOINT : String := "https://api.iextrading.com/1.0"

/-- src/lib.rs `Client::stocks_request`'s URL construction:
`format!("\x7bbase\x7d/stock/\x7bsymbol\x7d/\x7bendpoint\x7d")` with the
endpoint taken from `req.to_endpoint()`. -/
def stocks_request_url (symbol : String) (req : StocksEndpoint) : String :=
  IEX_ENDPOINT ++ "/stock/" ++ symbol ++ "/" ++ req.to_endpoint

/-- The symbol-listing test payload's fields other than `iexId`
(src/reference.rs tests). -/
def symbolFieldsBase : List (String × Json) :=
  [("symbol", .str "A"), ("name", .str "Agilent Technologies Inc."),
   ("date", .str "2018-10-23"), ("isEnabled", .bool true), ("type", .str "cs")]

/-- The symbol-listing test payload with a chosen `iexId` value. -/
def symbolPayload (iex : Json) : Json :=
  .obj (symbolFieldsBase ++ [("iexId", iex)])

/-- The symbol-listing test payload with the `iexId` key omitted entirely. -/
def symbolPayloadNoIex : Json :=
  .obj symbolFieldsBase

/-- The fields of the documented corporate-actions sample payload
(src/reference.rs tests and doc comment); the keys `NewListingCenter`,
`DelistingReason` and `CurrentRoundLotSize` have no counterpart field in the
struct. -/
def caSampleFields : List (String × Json) :=
  [("RecordID", .str " CA20171108153808144"),
        ("DailyListTimestamp", .str "2017-11-08T17:00:00"),
        ("EffectiveDate", .str "2017-11-10"),
        ("IssueEvent", .str "AA"),
        ("CurrentSymbolinINETSymbology", .str "ZEXIT-"),
        ("CurrentSymbolinCQSSymbology", .str "ZEXITp"),
        ("CurrentSymbolinCMSSymbology", .str "ZEXIT PR"),
        ("NewSymbolinINETSymbology", .str ""),
        ("NewSymbolinCQSSymbology", .str ""),
        ("NewSymbolinCMSSymbology", .str ""),
        ("CurrentSecurityName", .str "ZEXIT Preffered Stock"),
        ("NewSecurityName", .str ""),
        ("CurrentCompanyName", .str "ZEXIT Test Company"),
        ("NewCompanyName", .str ""),
        ("CurrentListingCenter", .str ""),
        ("NewListingCenter", .str "V"),
        ("DelistingReason", .str ""),
        ("CurrentRoundLotSize", .str "100"),
        ("NewRoundLotSize", .str ""),
        ("CurrentLULDTierIndicator", .str "0"),
        ("NewLULDTierIndicator", .str ""),
        ("ExpirationDate", .str "0"),
        ("SeparationDate", .str "0"),
        ("SettlementDate", .str "0"),
        ("MaturityDate", .str "0"),
        ("RedemptionDate", .str "0"),
        ("CurrentFinancialStatus", .str "0"),
        ("NewFinancialStatus", .str ""),
        ("WhenIssuedFlag", .str "N"),
        ("WhenDistributedFlag", .str "N"),
        ("IPOFlag", .str "N"),
        ("NotesforEachEntry", .str "New preferred ZIEXT security"),
        ("RecordUpdateTime", .str "2017-11-08T16:34:43")]

/-- The documented corporate-actions sample payload as a JSON object. -/
def corporateActionsSamplePayload : Json :=
  .obj caSampleFields

/-- The symbol-listing record decoded from the test payload with
`"iexId":"2"`; also the input of the serialize-then-decode round trip. -/
def symbolSampleRecord : SymbolData :=
  ⟨"A", "Agilent Technologies Inc.", ⟨2018, 10, 23⟩, true, "cs", 2⟩

/-- Substring test on character lists (structural, used to state facts about
error messages). -/
def containsSub (hay needle : List Char) : Bool :=
  match hay with
  | [] => needle.isEmpty
  | _ :: rest => needle.isPrefixOf hay || containsSub rest needle

/-- The `AuctionData` record carried under key "ZIEXT" in the auction test
payload (src/market_data.rs tests). -/
def auctionSampleRecord : AuctionData :=
  ⟨"Close", 2000, 0, "None", 1, 1, 1, 1, 1 / 2, 3 / 2, 0,
   1540324800000, 1540324799126⟩

/-- The auction-snapshot test payload: one key "ZIEXT". -/
def auctionsSamplePayload : Json :=
  .obj [("ZIEXT",
         .obj [("auctionType", .str "Close"),
               ("pairedShares", .num 2000),
               ("imbalanceShares", .num 0),
               ("imbalanceSide", .str "None"),
               ("referencePrice", .num 1),
               ("indicativePrice", .num 1),
               ("auctionBookPrice", .num 1),
               ("collarReferencePrice", .num 1),
               ("lowerCollarPrice", .num (1 / 2)),
               ("upperCollarPrice", .num (3 / 2)),
               ("extensionNumber", .num 0),
               ("startTime", .num 1540324800000),
               ("timestamp", .num 1540324799126)])]

/-! Helper lemmas shared by the claim theorems. -/

/-- Binding an `ok` value just applies the continuation. -/
theorem exceptBind_ok {α β ε : Type} (v : α) (k : α → Except ε β) :
    (Except.ok v : Except ε α) >>= k = k v := rfl

/-- Closed form of `from_bool_str` on an arbitrary string input: "N", "F" and
"" give `false`, everything else gives `true`, and the adapter never fails. -/
theorem from_bool_str_eq_ite (s : String) :
    from_bool_str (.str s) = .ok (if s = "N" ∨ s = "F" ∨ s = "" then false else true) := by
  show boolFromStr (if s = "N" ∨ s = "F" ∨ s = "" then "false" else "true") = _
  by_cases h : s = "N" ∨ s = "F" ∨ s = ""
  · rw [if_pos h, if_pos h]; rfl
  · rw [if_neg h, if_neg h]; rfl

/-- A natural number below 2^64, cast to a rational, is read back as itself. -/
theorem ratToU64_natCast (n : Nat) (h : n < 2 ^ 64) : ratToU64 (n : Rat) = some n := by
  show (if ((n : Rat)).den = 1 ∧ n < 2 ^ 64 then some n else none) = some n
  rw [if_pos ⟨Rat.den_natCast n, h⟩]

/-- `u64` deserialization inverts serialization of an in-range value. -/
theorem deserializeU64_natCast (n : Nat) (h : n < 2 ^ 64) :
    deserializeU64 (.num (n : Rat)) = .ok n := by
  simp only [deserializeU64, ratToU64_natCast n h]

/-- Claim C1: string-encoded-number coercion (`from_str`, whose every use in
the repository targets `u64`): the empty string decodes to 0 and the numeric
string "42" decodes to 42. -/
theorem from_str_empty_and_numeric :
    from_str (.str "") = .ok 0 ∧ from_str (.str "42") = .ok 42 :=
  ⟨rfl, rfl⟩

/-- Claim C2: flag-letter boolean coercion (`from_bool_str`): "N", "F" and ""
decode to `false`; "Y", "T" and arbitrary other text decode to `true`; on any
string input the coercion is total (it always returns `ok`). -/
theorem from_bool_str_flag_tokens :
    from_bool_str (.str "N") = .ok false ∧ from_bool_str (.str "F") = .ok false ∧
    from_bool_str (.str "") = .ok false ∧ from_bool_str (.str "Y") = .ok true ∧
    from_bool_str (.str "T") = .ok true ∧
    from_bool_str (.str "anything-else") = .ok true ∧
    (∀ s : String, from_bool_str (.str s) =
      .ok (if s = "N" ∨ s = "F" ∨ s = "" then false else true)) :=
  ⟨rfl, rfl, rfl, rfl, rfl, rfl, from_bool_str_eq_ite⟩

/-- Claim C3, counterexample: decoding the symbol-listing payload with
`"iexId":"abc"` does fail, but the error is the numeric parser's generic
message, which contains neither the field name (under either its wire or its
struct spelling) nor the raw text "abc" — the claim that the error names the
field and carries the raw text is false on the code. -/
theorem from_str_error_names_nothing_cex :
    decodeSymbolData (symbolPayload (.str "abc")) =
      .error "invalid digit found in string" ∧
    containsSub "invalid digit found in string".data "iexId".data = false ∧
    containsSub "invalid digit found in string".data "iex_id".data = false ∧
    containsSub "invalid digit found in string".data "abc".data = false :=
  ⟨rfl, rfl, rfl, rfl⟩

/-- Claim C3, amended: when a non-empty textual field does not parse as its
numeric target type, the coercion fails with a decode error — the numeric
parser's own error raised through serde's custom-error hook, whose message
does not include the field name or the raw text. -/
theorem from_str_nonparse_decode_error :
    from_str (.str "abc") = .error "invalid digit found in string" ∧
    decodeSymbolData (symbolPayload (.str "abc")) =
      .error "invalid digit found in string" :=
  ⟨rfl, rfl⟩

/-- Claim C4, counterexample: a malformed (non-empty, non-numeric) encoding of
the coerced field `iexId` aborts decoding of the whole record with an error —
it does not degrade to the documented default 0. -/
theorem malformed_numeric_aborts_record_cex :
    decodeSymbolData (symbolPayload (.str "abc")) =
      .error "invalid digit found in string" ∧
    decodeSymbolData (symbolPayload (.str "abc")) ≠
      .ok ⟨"A", "Agilent Technologies Inc.", ⟨2018, 10, 23⟩, true, "cs", 0⟩ := by
  refine ⟨rfl, ?_⟩
  intro h
  have h2 : (Except.error "invalid digit found in string" : Except String SymbolData) =
      .ok ⟨"A", "Agilent Technologies Inc.", ⟨2018, 10, 23⟩, true, "cs", 0⟩ := h
  exact Except.noConfusion h2

/-- Claim C4, amended: absence of a `default`-declared coerced numeric field
and the empty-string placeholder both degrade to 0, and a `from_bool_str`
field accepts every string token (ambiguous tokens degrade to a boolean)
without failing; but a malformed non-empty numeric string aborts decoding of
the whole record rather than degrading to the default. -/
theorem irregular_field_defaults :
    decodeSymbolData symbolPayloadNoIex =
      .ok ⟨"A", "Agilent Technologies Inc.", ⟨2018, 10, 23⟩, true, "cs", 0⟩ ∧
    decodeSymbolData (symbolPayload (.str "")) =
      .ok ⟨"A", "Agilent Technologies Inc.", ⟨2018, 10, 23⟩, true, "cs", 0⟩ ∧
    (∀ s : String, from_bool_str (.str s) = .ok false ∨
      from_bool_str (.str s) = .ok true) ∧
    decodeSymbolData (symbolPayload (.str "abc")) =
      .error "invalid digit found in string" := by
  refine ⟨rfl, rfl, ?_, rfl⟩
  intro s
  by_cases h : s = "N" ∨ s = "F" ∨ s = ""
  · left
    rw [from_bool_str_eq_ite, if_pos h]
  · right
    rw [from_bool_str_eq_ite, if_neg h]

/-- Claim C5, counterexample: serializing the symbol-listing record decoded
from the documented payload and decoding it back fails (the derived
serializer emits `iexId` as a JSON number, which the string-coercing
deserializer rejects), so the round trip does not hold for every
RecordSchema. -/
theorem symbol_roundtrip_fails_cex :
    decodeSymbolData (encodeSymbolData symbolSampleRecord) =
      .error "invalid type, expected a string" ∧
    decodeSymbolData (encodeSymbolData symbolSampleRecord) ≠ .ok symbolSampleRecord := by
  refine ⟨rfl, ?_⟩
  intro h
  have h2 : (Except.error "invalid type, expected a string" : Except String SymbolData) =
      .ok symbolSampleRecord := h
  exact Except.noConfusion h2

/-- Claim C5, amended: the serialize-then-decode round trip holds for record
schemas without coercion attributes — for every `AuctionData` record (whose
`u64` fields are in range), decoding the serialized form yields an equal
record; schemas with `from_str`/`from_bool_str` fields do not round-trip. -/
theorem auction_roundtrip (a : AuctionData)
    (hps : a.paired_shares < 2 ^ 64) (his : a.imbalance_shares < 2 ^ 64)
    (hrp : a.reference_price < 2 ^ 64) (hip : a.indicative_price < 2 ^ 64)
    (hab : a.auction_book_price < 2 ^ 64) (hcr : a.collar_reference_price < 2 ^ 64)
    (hen : a.extension_number < 2 ^ 64) (hst : a.start_time < 2 ^ 64)
    (hts : a.timestamp < 2 ^ 64) :
    decodeAuctionData (encodeAuctionData a) = .ok a := by
  have hdup : dupKnownField (encodeAuctionDataFields a) auctionDataKnownFields = false := rfl
  have e1 : reqField (encodeAuctionDataFields a) "auctionType" =
      .ok (Json.str a.auction_type) := rfl
  have e2 : reqField (encodeAuctionDataFields a) "pairedShares" =
      .ok (Json.num (a.paired_shares : Rat)) := rfl
  have e3 : reqField (encodeAuctionDataFields a) "imbalanceShares" =
      .ok (Json.num (a.imbalance_shares : Rat)) := rfl
  have e4 : reqField (encodeAuctionDataFields a) "imbalanceSide" =
      .ok (Json.str a.imbalance_side) := rfl
  have e5 : reqField (encodeAuctionDataFields a) "referencePrice" =
      .ok (Json.num (a.reference_price : Rat)) := rfl
  have e6 : reqField (encodeAuctionDataFields a) "indicativePrice" =
      .ok (Json.num (a.indicative_price : Rat)) := rfl
  have e7 : reqField (encodeAuctionDataFields a) "auctionBookPrice" =
      .ok (Json.num (a.auction_book_price : Rat)) := rfl
  have e8 : reqField (encodeAuctionDataFields a) "collarReferencePrice" =
      .ok (Json.num (a.collar_reference_price : Rat)) := rfl
  have e9 : reqField (encodeAuctionDataFields a) "lowerCollarPrice" =
      .ok (Json.num a.lower_collar_price) := rfl
  have e10 : reqField (encodeAuctionDataFields a) "upperCollarPrice" =
      .ok (Json.num a.upper_collar_price) := rfl
  have e11 : reqField (encodeAuctionDataFields a) "extensionNumber" =
      .ok (Json.num (a.extension_number : Rat)) := rfl
  have e12 : reqField (encodeAuctionDataFields a) "startTime" =
      .ok (Json.num (a.start_time : Rat)) := rfl
  have e13 : reqField (encodeAuctionDataFields a) "timestamp" =
      .ok (Json.num (a.timestamp : Rat)) := rfl
  show decodeAuctionData (.obj (encodeAuctionDataFields a)) = .ok a
  rw [decodeAuctionData]
  rw [hdup]
  rw [if_neg (by simp)]
  simp only [e1, e2, e3, e4, e5, e6, e7, e8, e9, e10, e11, e12, e13, exceptBind_ok,
    deserializeU64_natCast _ hps, deserializeU64_natCast _ his,
    deserializeU64_natCast _ hrp, deserializeU64_natCast _ hip,
    deserializeU64_natCast _ hab, deserializeU64_natCast _ hcr,
    deserializeU64_natCast _ hen, deserializeU64_natCast _ hst,
    deserializeU64_natCast _ hts, deserializeString, deserializeF64]

/-- Witness for the amended claim C5: the documented ZIEXT auction record
satisfies the range hypotheses and round-trips. -/
theorem auction_roundtrip_witness :
    auctionSampleRecord.paired_shares < 2 ^ 64 ∧
    auctionSampleRecord.imbalance_shares < 2 ^ 64 ∧
    auctionSampleRecord.reference_price < 2 ^ 64 ∧
    auctionSampleRecord.indicative_price < 2 ^ 64 ∧
    auctionSampleRecord.auction_book_price < 2 ^ 64 ∧
    auctionSampleRecord.collar_reference_price < 2 ^ 64 ∧
    auctionSampleRecord.extension_number < 2 ^ 64 ∧
    auctionSampleRecord.start_time < 2 ^ 64 ∧
    auctionSampleRecord.timestamp < 2 ^ 64 ∧
    decodeAuctionData (encodeAuctionData auctionSampleRecord) = .ok auctionSampleRecord :=
  ⟨by decide, by decide, by decide, by decide, by decide, by decide, by decide,
   by decide, by decide,
   auction_roundtrip auctionSampleRecord (by decide) (by decide) (by decide)
     (by decide) (by decide) (by decide) (by decide) (by decide) (by decide)⟩

/-- Claim C6: URL encoding is deterministic — encoding the same (symbol,
endpoint descriptor) pair twice yields the identical URL — and the URL has
the shape base ++ "/stock/" ++ symbol ++ "/" ++ endpoint segment with the
symbol taken verbatim. -/
theorem stocks_request_url_deterministic_shape (symbol : String) (req : StocksEndpoint) :
    stocks_request_url symbol req = stocks_request_url symbol req ∧
    stocks_request_url symbol req =
      IEX_ENDPOINT ++ "/stock/" ++ symbol ++ "/" ++ req.to_endpoint :=
  ⟨rfl, rfl⟩

/-- Claim C7: decoding the documented corporate-actions sample payload (with
IPOFlag "N" and EffectiveDate "2017-11-10") succeeds, and the resulting
record has `ipo_flag = false` and `effective_date` = 2017-11-10. -/
theorem corporate_actions_sample_decode :
    (decodeCorporateActionsData corporateActionsSamplePayload).map
      (fun r => (r.ipo_flag, r.effective_date)) = .ok (false, ⟨2017, 11, 10⟩) := by
  have hdup : dupKnownField caSampleFields corporateActionsKnownFields = false := rfl
  have f1 : reqField caSampleFields "RecordID" >>= deserializeString =
      .ok " CA20171108153808144" := rfl
  have f2 : reqField caSampleFields "DailyListTimestamp" >>= deserializeString =
      .ok "2017-11-08T17:00:00" := rfl
  have fd : reqField caSampleFields "EffectiveDate" >>= deserializeNaiveDate =
      .ok ⟨2017, 11, 10⟩ := rfl
  have f3 : reqField caSampleFields "IssueEvent" >>= deserializeString = .ok "AA" := rfl
  have f4 : reqField caSampleFields "CurrentSymbolinINETSymbology" >>= deserializeString =
      .ok "ZEXIT-" := rfl
  have f5 : reqField caSampleFields "CurrentSymbolinCQSSymbology" >>= deserializeString =
      .ok "ZEXITp" := rfl
  have f6 : reqField caSampleFields "CurrentSymbolinCMSSymbology" >>= deserializeString =
      .ok "ZEXIT PR" := rfl
  have f7 : reqField caSampleFields "NewSymbolinINETSymbology" >>= deserializeString =
      .ok "" := rfl
  have f8 : reqField caSampleFields "NewSymbolinCQSSymbology" >>= deserializeString =
      .ok "" := rfl
  have f9 : reqField caSampleFields "NewSymbolinCMSSymbology" >>= deserializeString =
      .ok "" := rfl
  have f10 : reqField caSampleFields "CurrentSecurityName" >>= deserializeString =
      .ok "ZEXIT Preffered Stock" := rfl
  have f11 : reqField caSampleFields "NewSecurityName" >>= deserializeString = .ok "" := rfl
  have f12 : reqField caSampleFields "CurrentCompanyName" >>= deserializeString =
      .ok "ZEXIT Test Company" := rfl
  have f13 : reqField caSampleFields "NewCompanyName" >>= deserializeString = .ok "" := rfl
  have f14 : reqField caSampleFields "CurrentListingCenter" >>= deserializeString =
      .ok "" := rfl
  have g1 : optFromStrField caSampleFields "NewRoundLotSize" = .ok 0 := rfl
  have g2 : optFromStrField caSampleFields "CurrentLULDTierIndicator" = .ok 0 := rfl
  have g3 : optFromStrField caSampleFields "NewLULDTierIndicator" = .ok 0 := rfl
  have g4 : optFromStrField caSampleFields "ExpirationDate" = .ok 0 := rfl
  have g5 : optFromStrField caSampleFields "SeparationDate" = .ok 0 := rfl
  have g6 : optFromStrField caSampleFields "SettlementDate" = .ok 0 := rfl
  have g7 : optFromStrField caSampleFields "MaturityDate" = .ok 0 := rfl
  have g8 : optFromStrField caSampleFields "RedemptionDate" = .ok 0 := rfl
  have f15 : reqField caSampleFields "CurrentFinancialStatus" >>= deserializeString =
      .ok "0" := rfl
  have f16 : reqField caSampleFields "NewFinancialStatus" >>= deserializeString =
      .ok "" := rfl
  have fb1 : reqField caSampleFields "WhenIssuedFlag" >>= from_bool_str = .ok false := rfl
  have fb2 : reqField caSampleFields "WhenDistributedFlag" >>= from_bool_str =
      .ok false := rfl
  have fb3 : reqField caSampleFields "IPOFlag" >>= from_bool_str = .ok false := rfl
  have f17 : reqField caSampleFields "NotesforEachEntry" >>= deserializeString =
      .ok "New preferred ZIEXT security" := rfl
  have f18 : reqField caSampleFields "RecordUpdateTime" >>= deserializeString =
      .ok "2017-11-08T16:34:43" := rfl
  show (decodeCorporateActionsData (.obj caSampleFields)).map
      (fun r => (r.ipo_flag, r.effective_date)) = .ok (false, ⟨2017, 11, 10⟩)
  rw [decodeCorporateActionsData]
  rw [hdup]
  rw [if_neg (by simp)]
  simp only [f1, f2, fd, f3, f4, f5, f6, f7, f8, f9, f10, f11, f12, f13, f14,
    g1, g2, g3, g4, g5, g6, g7, g8, f15, f16, fb1, fb2, fb3, f17, f18,
    exceptBind_ok]
  rfl

/-- Claim C8: decoding the auction-snapshot payload keyed by "ZIEXT" (whose
value has auctionType "Close") yields a mapping containing the key "ZIEXT"
whose record has `auction_type = "Close"`. -/
theorem auctions_sample_decode :
    decodeAuctions auctionsSamplePayload = .ok [("ZIEXT", auctionSampleRecord)] ∧
    auctionSampleRecord.auction_type = "Close" :=
  ⟨rfl, rfl⟩

/-- Claim C9: a `from_str`-coerced field transmitted as a JSON number rather
than a JSON string fails to decode, for every numeric value: the adapter
first demands a JSON string. -/
theorem from_str_field_rejects_json_number (q : Rat) :
    decodeSymbolData (symbolPayload (.num q)) =
      .error "invalid type, expected a string" :=
  rfl

/-- Claim C10: decoding the symbol-listing payload with the "iexId" key
omitted entirely succeeds, yielding the serde default 0 for `iex_id` while
the present fields decode normally. -/
theorem symbol_missing_iex_id_defaults :
    decodeSymbolData symbolPayloadNoIex =
      .ok ⟨"A", "Agilent Technologies Inc.", ⟨2018, 10, 23⟩, true, "cs", 0⟩ :=
  rfl

end IexRs
